import Mathlib

/-
Verification development for the iot-hub-statuspage repository
(collection-and-broadcast pipeline).

Shallow embedding conventions:
- Go float64 values are modelled as exact rationals (ℚ); the float64
  rounding of intermediate arithmetic is not modelled, so statements about
  float quantities are about the ideal real-valued computation the code
  expresses.
- Go integers are modelled as ℕ / ℤ.
- Fallible operations return Except / Option; a Go panic (out-of-range
  string index) is modelled as Option.none.
- Durations are modelled in whole seconds (the Go code converts
  time.Duration to hours/minutes via float64 truncation, which agrees with
  Nat division on the second scale for non-negative durations).
-/

/-- Round a rational to the nearest integer, ties to even.  This is the
rounding mode of Go's fmt "%.Nf" verbs (strconv.FormatFloat rounds to
nearest, ties to even). -/
def roundHalfEven (q : ℚ) : ℤ :=
  if q - ⌊q⌋ < 1 / 2 then ⌊q⌋
  else if 1 / 2 < q - ⌊q⌋ then ⌊q⌋ + 1
  else if ⌊q⌋ % 2 = 0 then ⌊q⌋ else ⌊q⌋ + 1

/-- Model of Go fmt.Sprintf "%.0f" for a non-negative value. -/
def fmtF0 (q : ℚ) : String :=
  toString (roundHalfEven q)

/-- Model of Go fmt.Sprintf "%.1f" for a non-negative value. -/
def fmtF1 (q : ℚ) : String :=
  toString (roundHalfEven (q * 10) / 10) ++ "." ++ toString (roundHalfEven (q * 10) % 10)

/-- The unit-selection loop of formatBytes (src/internal/web/server.go,
lines 405-409): starting from n = bytes / 1024, while 1024 ≤ n the loop
multiplies div by 1024, increments exp and divides n by 1024.  The loop has
no bound in the source; the fuel argument makes the recursion structural,
and exhausting it is modelled as `none` (for any float64-scale input the
fuel used below is never exhausted). -/
def fbLoop : Nat → ℚ → ℤ → Nat → Option (ℤ × Nat)
  | 0, _, _, _ => none
  | fuel + 1, n, div, exp =>
    if 1024 ≤ n then fbLoop fuel (n / 1024) (div * 1024) (exp + 1)
    else some (div, exp)

/-- The characters of the unit string "KMGTPE" indexed by the loop
exponent in formatBytes. -/
def unitChars : List Char := ['K', 'M', 'G', 'T', 'P', 'E']

/-- Model of formatBytes (src/internal/web/server.go, lines 399-412).
Returns `none` when the index into "KMGTPE" would be out of range, which
in Go is a panic. -/
def formatBytes (bytes : ℚ) : Option String :=
  if bytes < 1024 then some (fmtF0 bytes ++ " B")
  else
    match fbLoop 64 (bytes / 1024) 1024 0 with
    | none => none
    | some (div, exp) =>
      match unitChars.get? exp with
      | none => none
      | some c => some (fmtF1 (bytes / (div : ℚ)) ++ " " ++ String.mk [c] ++ "B")

/-- Model of formatDuration (src/internal/web/server.go lines 414-425 and
the identical copy in src/internal/metrics/collector.go lines 309-320),
over a duration given in whole seconds:
days = int(d.Hours()) / 24, hours = int(d.Hours()) % 24,
minutes = int(d.Minutes()) % 60. -/
def formatDuration (s : Nat) : String :=
  let days := s / 3600 / 24
  let hours := s / 3600 % 24
  let minutes := s / 60 % 60
  if days > 0 then
    toString days ++ "d " ++ toString hours ++ "h " ++ toString minutes ++ "m"
  else if hours > 0 then
    toString hours ++ "h " ++ toString minutes ++ "m"
  else
    toString minutes ++ "m"

/-- The network-rate computation inlined in Collector.collect
(src/internal/metrics/collector.go, lines 134-152): on the first tick
(lastCollectTime is the zero time) the rate is 0; otherwise, when the
elapsed time is positive the rate is the counter difference over elapsed
seconds, clamped to 0 when negative; when the elapsed time is not positive
the metrics field keeps its zero value from the freshly initialised
SystemMetrics struct. -/
def networkRate (firstTick : Bool) (last cur timeDiff : ℚ) : ℚ :=
  if firstTick then 0
  else if 0 < timeDiff then
    if (cur - last) / timeDiff < 0 then 0 else (cur - last) / timeDiff
  else 0

/-- Row of the system_metrics table (src/internal/storage/db.go,
storage.SystemMetric; the id and timestamp columns are assigned by the
database and omitted). -/
structure SystemMetric where
  MetricType : String
  Value : ℚ
deriving DecidableEq

/-- Row of the service_status table (src/internal/storage/db.go,
storage.ServiceStatus; id and timestamp omitted as above). -/
structure ServiceStatusRow where
  Service : String
  Status : String
  Details : String
deriving DecidableEq

/-- The visible contents of the two tables written by BulkInsert. -/
structure Store where
  systemMetricsRows : List SystemMetric
  serviceStatusRows : List ServiceStatusRow
deriving DecidableEq

/-- Failure oracle for one BulkInsert call: which of the fallible
database operations (Begin, the two Prepares, each statement Exec, Commit)
fail on this call. -/
structure TxOracle where
  beginErr : Bool
  prepMetricErr : Bool
  prepStatusErr : Bool
  metricExecErr : Nat → Bool
  statusExecErr : Nat → Bool
  commitErr : Bool

/-- Execution of the prepared-statement loop of BulkInsert: insert rows in
order into the transaction buffer, stopping at the first Exec error. -/
def execAll {α : Type} (fail : Nat → Bool) : Nat → List α → Except String (List α)
  | _, [] => Except.ok []
  | i, r :: rs =>
    if fail i then Except.error "failed to insert"
    else
      match execAll fail (i + 1) rs with
      | Except.error e => Except.error e
      | Except.ok acc => Except.ok (r :: acc)

/-- Whether an Except result is the success case. -/
def exceptOk : Except String Unit → Bool
  | Except.ok _ => true
  | Except.error _ => false

/-- Model of DB.BulkInsert (src/internal/storage/db.go, lines 97-137):
begin a transaction (with deferred rollback), prepare the two statements,
exec every metric row then every status row inside the transaction, and
commit.  Any error returns with the store unchanged (the deferred rollback
discards the buffered rows); only a successful commit makes all rows of
both lists visible. -/
def BulkInsert (o : TxOracle) (db : Store) (metrics : List SystemMetric)
    (statuses : List ServiceStatusRow) : Except String Unit × Store :=
  if o.beginErr then (Except.error "failed to begin transaction", db)
  else if o.prepMetricErr then (Except.error "failed to prepare metric statement", db)
  else if o.prepStatusErr then (Except.error "failed to prepare status statement", db)
  else
    match execAll o.metricExecErr 0 metrics with
    | Except.error e => (Except.error e, db)
    | Except.ok ms =>
      match execAll o.statusExecErr 0 statuses with
      | Except.error e => (Except.error e, db)
      | Except.ok ss =>
        if o.commitErr then (Except.error "failed to commit transaction", db)
        else (Except.ok (),
          { systemMetricsRows := db.systemMetricsRows ++ ms,
            serviceStatusRows := db.serviceStatusRows ++ ss })

/-- types.ServiceStatus (src/unnamed/part_002): the display entry for one
monitored backend or container. -/
structure ServiceStatus where
  Name : String
  Status : String
  Healthy : Bool
  LastChange : String
  Uptime : String
  Details : String
deriving DecidableEq

/-- types.SystemMetrics (src/unnamed/part_002). Uptime is in whole
seconds (the source stores time.Duration(uptimeSeconds) * time.Second). -/
structure SystemMetrics where
  CPUPercent : ℚ
  MemoryPercent : ℚ
  MemoryUsed : Nat
  MemoryTotal : Nat
  DiskPercent : ℚ
  DiskUsed : Nat
  DiskTotal : Nat
  NetworkIn : ℚ
  NetworkOut : ℚ
  Uptime : Nat
  DatabaseSize : ℤ
  DatabaseConnected : Bool
  HAProxyConnected : Bool
  DockerConnected : Bool
  Pi5Connected : Bool
  Pi52Connected : Bool
deriving DecidableEq

/-- The Go zero value of types.SystemMetrics, the value of the fresh
`metrics := types.SystemMetrics()` struct at the top of collect(). -/
def emptyMetrics : SystemMetrics :=
  { CPUPercent := 0, MemoryPercent := 0, MemoryUsed := 0, MemoryTotal := 0
    DiskPercent := 0, DiskUsed := 0, DiskTotal := 0
    NetworkIn := 0, NetworkOut := 0, Uptime := 0
    DatabaseSize := 0, DatabaseConnected := false, HAProxyConnected := false
    DockerConnected := false, Pi5Connected := false, Pi52Connected := false }

/-- haproxy.Backend (fields of the HAProxy stats row used by the collector
and the web server). -/
structure Backend where
  Name : String
  Status : String
  Active : Bool
  LastChange : ℤ
deriving DecidableEq

/-- One container as seen by collectDockerStats: the listing entry
(Names[0], State) plus the result of ContainerInspect — whether the
inspect call succeeded, the health-check status when State.Health is
non-nil, and the whole seconds elapsed since State.StartedAt when that
field is non-empty. -/
structure ContainerInfo where
  name : String
  state : String
  inspectOk : Bool
  health : Option String
  startedAgo : Option Nat
deriving DecidableEq

/-- The mutexed fields of metrics.Collector (src/internal/metrics/
collector.go, lines 24-34).  lastCollectTimeIsZero models
lastCollectTime.IsZero(). -/
structure CollectorState where
  current : SystemMetrics
  dockerStatus : List ServiceStatus
  lastNetworkIn : ℚ
  lastNetworkOut : ℚ
  lastCollectTimeIsZero : Bool
deriving DecidableEq

/-- Strip the leading slash of a container name (collector.go lines
249-252). -/
def stripSlash (s : String) : String :=
  if s.startsWith "/" then s.drop 1 else s

/-- Build the types.ServiceStatus display entry for one container
(collector.go lines 248-276). -/
def containerEntry (c : ContainerInfo) : ServiceStatus :=
  let name := stripSlash c.name
  let healthy0 := c.state == "running"
  let healthy :=
    if c.inspectOk then
      match c.health with
      | some h => h == "healthy"
      | none => healthy0
    else healthy0
  let details :=
    if c.inspectOk then
      match c.health with
      | some h => if h == "healthy" then "" else h
      | none => ""
    else ""
  let uptime :=
    if c.inspectOk then
      match c.startedAgo with
      | some secs => formatDuration secs
      | none => ""
    else ""
  { Name := name, Status := c.state, Healthy := healthy, LastChange := "",
    Uptime := uptime, Details := details }

/-- The service_status row appended for one container entry (collector.go
lines 281-289). -/
def containerRow (e : ServiceStatus) : ServiceStatusRow :=
  { Service := "docker_" ++ e.Name,
    Status := if e.Healthy then "UP" else "DOWN",
    Details := e.Details }

/-- Model of Collector.collectDockerStats (collector.go lines 235-295).
When ContainerList fails it sets current.DockerConnected to false on the
collector state and returns without touching dockerStatus; on success it
replaces dockerStatus with the freshly built list and returns the rows to
append to the batch. -/
def collectDockerStats (st : CollectorState) (list? : Option (List ContainerInfo)) :
    CollectorState × List ServiceStatusRow :=
  match list? with
  | none => ({ st with current := { st.current with DockerConnected := false } }, [])
  | some cs =>
    let entries := cs.map containerEntry
    ({ st with dockerStatus := entries }, entries.map containerRow)

/-- The results of all adapter calls made during one tick of
Collector.collect: `none` means the adapter returned an error this tick.
timeDiff is time.Since(lastCollectTime) in seconds. -/
structure AdapterInputs where
  cpu : Option ℚ
  memory : Option (ℚ × Nat × Nat)
  diskUsage : Option (ℚ × Nat × Nat)
  netCounters : Option (ℚ × ℚ)
  timeDiff : ℚ
  uptimeInfo : Option Nat
  dbSize : Option ℤ
  dbPingOk : Bool
  haproxyStats : Option (List Backend)
  dockerClientPresent : Bool
  containerList : Option (List ContainerInfo)
  pi5Ping : Bool
  pi52Ping : Bool

/-- What one invocation of collect produces: the new collector state and
the batch passed to BulkInsert. -/
structure CollectResult where
  state : CollectorState
  metricRows : List SystemMetric
  statusRows : List ServiceStatusRow
deriving DecidableEq

/-- Model of Collector.collect (collector.go lines 67-233) as a pure
function of the previous collector state and this tick's adapter results.
The snapshot-under-construction starts from the fresh zero struct; each
successful adapter merges its values and appends batch rows; each failing
adapter leaves the zero defaults (and sets its connectivity flag as the
source does).  Note the source order: collectDockerStats runs first (its
write of DockerConnected := false on failure lands on the old current),
then metrics.DockerConnected is set from the client-presence check, and
finally current is overwritten with the fresh metrics struct. -/
def collect (st : CollectorState) (inp : AdapterInputs) : CollectResult :=
  let m0 := emptyMetrics
  let step1 : SystemMetrics × List SystemMetric :=
    match inp.cpu with
    | some v => ({ m0 with CPUPercent := v }, [{ MetricType := "cpu", Value := v }])
    | none => (m0, [])
  let step2 : SystemMetrics × List SystemMetric :=
    match inp.memory with
    | some (p, u, t) =>
      ({ step1.1 with MemoryPercent := p, MemoryUsed := u, MemoryTotal := t },
       [{ MetricType := "memory", Value := p },
        { MetricType := "memory_used", Value := (u : ℚ) },
        { MetricType := "memory_total", Value := (t : ℚ) }])
    | none => (step1.1, [])
  let step3 : SystemMetrics × List SystemMetric :=
    match inp.diskUsage with
    | some (p, u, t) =>
      ({ step2.1 with DiskPercent := p, DiskUsed := u, DiskTotal := t },
       [{ MetricType := "disk", Value := p },
        { MetricType := "disk_used", Value := (u : ℚ) },
        { MetricType := "disk_total", Value := (t : ℚ) }])
    | none => (step2.1, [])
  let step4 : SystemMetrics × ℚ × ℚ × List SystemMetric :=
    match inp.netCounters with
    | some (curIn, curOut) =>
      let nIn := networkRate st.lastCollectTimeIsZero st.lastNetworkIn curIn inp.timeDiff
      let nOut := networkRate st.lastCollectTimeIsZero st.lastNetworkOut curOut inp.timeDiff
      ({ step3.1 with NetworkIn := nIn, NetworkOut := nOut }, curIn, curOut,
       [{ MetricType := "network_in_rate", Value := nIn },
        { MetricType := "network_out_rate", Value := nOut }])
    | none => (step3.1, st.lastNetworkIn, st.lastNetworkOut, [])
  let step5 : SystemMetrics :=
    match inp.uptimeInfo with
    | some u => { step4.1 with Uptime := u }
    | none => step4.1
  let step6 : SystemMetrics × List SystemMetric :=
    match inp.dbSize with
    | some sz =>
      ({ step5 with DatabaseSize := sz, DatabaseConnected := true },
       [{ MetricType := "database_size", Value := (sz : ℚ) }])
    | none => ({ step5 with DatabaseConnected := inp.dbPingOk }, [])
  let step7 : SystemMetrics × List ServiceStatusRow :=
    match inp.haproxyStats with
    | some bs =>
      ({ step6.1 with HAProxyConnected := true },
       bs.map (fun b =>
         { Service := "haproxy_" ++ b.Name,
           Status := if b.Active then "UP" else "DOWN",
           Details := "" }))
    | none => ({ step6.1 with HAProxyConnected := false }, [])
  let dockerStep : CollectorState × List ServiceStatusRow :=
    if inp.dockerClientPresent then collectDockerStats st inp.containerList
    else (st, [])
  let m8 : SystemMetrics :=
    { step7.1 with DockerConnected := inp.dockerClientPresent,
                   Pi5Connected := inp.pi5Ping, Pi52Connected := inp.pi52Ping }
  { state :=
      { current := m8, dockerStatus := dockerStep.1.dockerStatus,
        lastNetworkIn := step4.2.1, lastNetworkOut := step4.2.2.1,
        lastCollectTimeIsZero := false },
    metricRows := step1.2 ++ step2.2 ++ step3.2 ++ step4.2.2.2 ++ step6.2,
    statusRows := step7.2 ++ dockerStep.2 }

/-- web.SystemStatus (src/internal/web/server.go lines 41-49). -/
structure SystemStatus where
  CPUPercent : ℚ
  MemoryPercent : ℚ
  DiskPercent : ℚ
  NetworkIn : ℚ
  NetworkOut : ℚ
  Uptime : String
  DatabaseSize : ℤ
deriving DecidableEq

/-- web.StatusResponse (server.go lines 35-39; the LastUpdated wall-clock
field is not modelled). -/
structure StatusResponse where
  services : List ServiceStatus
  system : SystemStatus
deriving DecidableEq

/-- The service entry built from one HAProxy backend in getCurrentStatus
(server.go lines 296-316). -/
def backendEntry (b : Backend) : ServiceStatus :=
  let lastChange := if 0 < b.LastChange then formatDuration b.LastChange.toNat else ""
  { Name := b.Name, Status := b.Status, Healthy := b.Active,
    LastChange := lastChange,
    Uptime := if b.Active then lastChange else "",
    Details := if b.Active then "" else "Down for " ++ lastChange }

/-- Model of Server.getCurrentStatus (server.go lines 284-337) as a
function of this request's HAProxy stats result and the collector's
current snapshot (GetCurrentMetrics / GetDockerStatus).  When the HAProxy
stats fetch fails, the error is returned to the caller. -/
def getCurrentStatus (haproxyStats : Except String (List Backend))
    (systemMetrics : SystemMetrics) (dockerServices : List ServiceStatus) :
    Except String StatusResponse :=
  match haproxyStats with
  | Except.error e => Except.error e
  | Except.ok backends =>
    Except.ok
      { services := backends.map backendEntry ++ dockerServices,
        system :=
          { CPUPercent := systemMetrics.CPUPercent,
            MemoryPercent := systemMetrics.MemoryPercent,
            DiskPercent := systemMetrics.DiskPercent,
            NetworkIn := systemMetrics.NetworkIn,
            NetworkOut := systemMetrics.NetworkOut,
            Uptime := formatDuration systemMetrics.Uptime,
            DatabaseSize := systemMetrics.DatabaseSize } }

/-- Model of Server.handleAPIStatus (server.go lines 119-127): the HTTP
status code and optional body of the response. -/
def handleAPIStatus (haproxyStats : Except String (List Backend))
    (systemMetrics : SystemMetrics) (dockerServices : List ServiceStatus) :
    Nat × Option StatusResponse :=
  match getCurrentStatus haproxyStats systemMetrics dockerServices with
  | Except.error _ => (500, none)
  | Except.ok r => (200, some r)

/-- A value of the flat signals map (map from string to interface value
holding either a formatted string or a boolean). -/
inductive SignalValue where
  | str (v : String)
  | bool (v : Bool)
deriving DecidableEq

/-- Total wrapper of formatBytes as used when building signal payloads
(Go's formatBytes is total; the `none` case of the model is the
out-of-unit-range panic, unreachable at float64 scale, cf. the
formatBytes bound theorem). -/
def fmtBytesStr (q : ℚ) : String :=
  (formatBytes q).getD ""

/-- The four indexed signal entries added for one service (server.go
lines 191-196 and 362-367). -/
def serviceSignals (p : Nat × ServiceStatus) : List (String × SignalValue) :=
  [("service" ++ toString p.1 ++ "_status", SignalValue.str p.2.Status),
   ("service" ++ toString p.1 ++ "_healthy", SignalValue.bool p.2.Healthy),
   ("service" ++ toString p.1 ++ "_details", SignalValue.str p.2.Details),
   ("service" ++ toString p.1 ++ "_uptime", SignalValue.str p.2.Uptime)]

/-- The flat signals payload built from a status response, identically in
handleSSE (server.go lines 179-196) and broadcastUpdates (lines 350-367);
`now` is the formatted wall-clock string for the lastUpdated key.  The Go
map is unordered; it is represented here as the association list of its
entries in insertion order (all keys are distinct). -/
def buildSignals (now : String) (r : StatusResponse) : List (String × SignalValue) :=
  [("cpuPercent", SignalValue.str (fmtF1 r.system.CPUPercent)),
   ("memoryPercent", SignalValue.str (fmtF1 r.system.MemoryPercent)),
   ("diskPercent", SignalValue.str (fmtF1 r.system.DiskPercent)),
   ("networkIn", SignalValue.str (fmtBytesStr r.system.NetworkIn)),
   ("networkOut", SignalValue.str (fmtBytesStr r.system.NetworkOut)),
   ("uptime", SignalValue.str r.system.Uptime),
   ("databaseSize", SignalValue.str (fmtBytesStr (r.system.DatabaseSize : ℚ))),
   ("lastUpdated", SignalValue.str now)]
  ++ (r.services.enum.flatMap serviceSignals)

/-- The catch-up update of handleSSE (server.go lines 176-210) as observed
by the newly connected client.  The client channel is unbuffered
(`make(chan Event)`), so the goroutine's non-blocking send (`select` with
a `default` branch) succeeds exactly when the client's Stream loop is
already blocked receiving on the channel — `recvReady`.  The result is the
event the client receives from the catch-up path: `none` when the status
read failed or the non-blocking send hit the default branch. -/
def catchUpEvent (now : String) (status : Except String StatusResponse)
    (recvReady : Bool) : Option (List (String × SignalValue)) :=
  match status with
  | Except.error _ => none
  | Except.ok st => if recvReady then some (buildSignals now st) else none

/-- One registered SSE client as the broadcaster sees it: the pending
events of its channel and the channel capacity (a Go unbuffered channel
with a ready receiver admits one value: it behaves as capacity 1 here;
with no ready receiver it behaves as capacity 0, i.e. full). -/
structure SSEClient where
  queue : List (List (String × SignalValue))
  cap : Nat
deriving DecidableEq

/-- The non-blocking send of broadcastUpdates (server.go lines 384-391):
deliver when the channel can accept the event, otherwise silently drop
this one update for this one client. -/
def trySend (ev : List (String × SignalValue)) (c : SSEClient) : SSEClient :=
  if c.queue.length < c.cap then { c with queue := c.queue ++ [ev] } else c

/-- One round of Server.broadcastUpdates (server.go lines 343-396): when
the status read fails the round is skipped entirely; otherwise the signals
payload is built once and delivery is attempted non-blocking to every
registered client queue. -/
def broadcastRound (status : Except String StatusResponse) (now : String)
    (clients : List SSEClient) : List SSEClient :=
  match status with
  | Except.error _ => clients
  | Except.ok r => clients.map (trySend (buildSignals now r))

/-- The two mutex-protected writes a collection tick performs on the
collector's reader-visible fields, tagged with the tick number:
collectDockerStats' write of dockerStatus (collector.go lines 292-294)
and collect's write of current (lines 224-227). -/
inductive CAction where
  | writeDocker (t : Nat)
  | writeCurrent (t : Nat)
deriving DecidableEq

/-- What a reader can observe between atomic (mutex-protected) writes:
the tick that last wrote current and the tick that last wrote
dockerStatus (0 = initial empty state). -/
structure LockView where
  curTick : Nat
  dockerTick : Nat
deriving DecidableEq

/-- Effect of one atomic write on the observable view. -/
def applyAction (s : LockView) : CAction → LockView
  | CAction.writeDocker t => { s with dockerTick := t }
  | CAction.writeCurrent t => { s with curTick := t }

/-- The atomic writes of tick t in program order: the dockerStatus write
happens (only when ContainerList succeeded) before the current write. -/
def tickActions : Bool → Nat → List CAction
  | true, t => [CAction.writeDocker t, CAction.writeCurrent t]
  | false, t => [CAction.writeCurrent t]

/-- The atomic writes of the collection loop starting at tick t, given
for each tick whether its docker listing succeeded. -/
def loopActions : List Bool → Nat → List CAction
  | [], _ => []
  | ok :: rest, t => tickActions ok t ++ loopActions rest (t + 1)

/-- The view after executing a sequence of atomic writes from the initial
(empty) collector state. -/
def runActions (as : List CAction) : LockView :=
  as.foldl applyAction { curTick := 0, dockerTick := 0 }

/-- A view is reachable when some prefix of the collection loop's atomic
writes produces it (a reader can take the read lock at any such point). -/
def ReachableView (s : LockView) : Prop :=
  ∃ oks k, s = runActions ((loopActions oks 1).take k)

/-- The claim that every reachable view is single-tick: current and
dockerStatus were written by the same invocation of collect. -/
def SnapshotConsistent : Prop :=
  ∀ s, ReachableView s → s.curTick = s.dockerTick

/-- The collector state built by NewCollector (collector.go lines 36-48):
zero current metrics, no docker status, zero network baselines, zero
lastCollectTime. -/
def initialCollectorState : CollectorState :=
  { current := emptyMetrics, dockerStatus := [], lastNetworkIn := 0,
    lastNetworkOut := 0, lastCollectTimeIsZero := true }

/-- A docker service entry published by a successful earlier tick. -/
def prevDockerEntry : ServiceStatus :=
  { Name := "iot-relay", Status := "running", Healthy := true, LastChange := "",
    Uptime := "2h 5m", Details := "" }

/-- Collector state after a successful tick: docker connected, one docker
service entry, network baselines stored. -/
def stAfterTick1 : CollectorState :=
  { current := { emptyMetrics with DockerConnected := true, CPUPercent := 7 },
    dockerStatus := [prevDockerEntry], lastNetworkIn := 1000, lastNetworkOut := 2000,
    lastCollectTimeIsZero := false }

/-- Adapter results for a tick in which the docker client exists but
ContainerList fails (and the other adapters fail too). -/
def dockerFailInputs : AdapterInputs :=
  { cpu := none, memory := none, diskUsage := none, netCounters := none, timeDiff := 5,
    uptimeInfo := none, dbSize := none, dbPingOk := false, haproxyStats := none,
    dockerClientPresent := true, containerList := none, pi5Ping := false,
    pi52Ping := false }

/-- A concrete status response with no services and zero metrics. -/
def emptyStatusResponse : StatusResponse :=
  { services := [],
    system := { CPUPercent := 0, MemoryPercent := 0, DiskPercent := 0, NetworkIn := 0,
                NetworkOut := 0, Uptime := "0m", DatabaseSize := 0 } }

/-
Helper lemmas.
-/

theorem roundHalfEven_intCast (z : ℤ) : roundHalfEven (z : ℚ) = z := by
  unfold roundHalfEven
  rw [Int.floor_intCast, sub_self]
  norm_num

theorem fmtF0_intCast (z : ℤ) : fmtF0 (z : ℚ) = toString z := by
  unfold fmtF0
  rw [roundHalfEven_intCast]

theorem fmtF1_intCast (z : ℤ) : fmtF1 (z : ℚ) = toString z ++ "." ++ "0" := by
  unfold fmtF1
  have h : (z : ℚ) * 10 = ((z * 10 : ℤ) : ℚ) := by push_cast; ring
  rw [h, roundHalfEven_intCast]
  have h2 : z * 10 / 10 = z := Int.mul_ediv_cancel z (by norm_num)
  have h3 : z * 10 % 10 = 0 := by rw [Int.mul_comm]; exact Int.mul_emod_right 10 z
  rw [h2, h3]
  rfl

theorem fbLoop_succ (fuel : Nat) (n : ℚ) (div : ℤ) (exp : Nat) :
    fbLoop (fuel + 1) n div exp =
      if 1024 ≤ n then fbLoop fuel (n / 1024) (div * 1024) (exp + 1)
      else some (div, exp) := rfl

theorem fbLoop_some (k : Nat) : ∀ (fuel : Nat) (n : ℚ) (div : ℤ) (exp : Nat),
    n < 1024 ^ (k + 1) → k < fuel →
    ∃ d e, fbLoop fuel n div exp = some (d, e) ∧ e ≤ exp + k := by
  induction k with
  | zero =>
    intro fuel n div exp hn hf
    obtain ⟨f, rfl⟩ : ∃ f, fuel = f + 1 := ⟨fuel - 1, by omega⟩
    rw [fbLoop_succ, if_neg (not_le.mpr (by rw [pow_one] at hn; exact hn))]
    exact ⟨div, exp, rfl, Nat.le_refl _⟩
  | succ k ih =>
    intro fuel n div exp hn hf
    obtain ⟨f, rfl⟩ : ∃ f, fuel = f + 1 := ⟨fuel - 1, by omega⟩
    rw [fbLoop_succ]
    by_cases hc : (1024 : ℚ) ≤ n
    · rw [if_pos hc]
      have hdiv : n / 1024 < 1024 ^ (k + 1) := by
        rw [div_lt_iff₀ (by norm_num : (0:ℚ) < 1024)]
        calc n < 1024 ^ (k + 1 + 1) := hn
        _ = 1024 ^ (k + 1) * 1024 := by ring
      obtain ⟨d, e, he, hle⟩ := ih f (n / 1024) (div * 1024) (exp + 1) hdiv (by omega)
      exact ⟨d, e, he, by omega⟩
    · rw [if_neg hc]
      exact ⟨div, exp, rfl, by omega⟩

/-
Claim theorems.
-/

/-- C8 counterexample: the claim says 90000 seconds render as "1d 1h"
(largest two non-zero units), but formatDuration renders all three
components once days are positive, so 90000 seconds render as "1d 1h 0m". -/
theorem formatDuration_two_units_counterexample :
    formatDuration 90000 ≠ "1d 1h" := by decide

/-- C8 (amended): formatDuration renders minutes only below one hour,
hours and minutes (including a zero minutes part) from one hour up to one
day, and all three of days, hours and minutes (including zero parts) from
one day up; 90 s → "1m", 3661 s → "1h 1m", 90000 s → "1d 1h 0m". -/
theorem formatDuration_amended :
    formatDuration 90 = "1m" ∧ formatDuration 3661 = "1h 1m" ∧
    formatDuration 90000 = "1d 1h 0m" ∧
    (∀ s : Nat, 3600 ≤ s → s < 86400 →
      formatDuration s = toString (s / 3600) ++ "h " ++ toString (s / 60 % 60) ++ "m") := by
  refine ⟨by decide, by decide, by decide, ?_⟩
  intro s h1 h2
  unfold formatDuration
  have hd : s / 3600 / 24 = 0 := by omega
  have hh : s / 3600 % 24 = s / 3600 := Nat.mod_eq_of_lt (by omega)
  simp [hd, hh]
  omega

/-- C8 witness: the hour-range clause of the amended claim at 7200
seconds. -/
theorem formatDuration_amended_witness :
    3600 ≤ 7200 ∧ 7200 < 86400 ∧
    formatDuration 7200 = toString (7200 / 3600) ++ "h " ++ toString (7200 / 60 % 60) ++ "m" :=
  ⟨by decide, by decide, formatDuration_amended.2.2.2 7200 (by decide) (by decide)⟩

/-- C9: formatBytes renders with binary-prefix units in 1024 steps, no
decimal place at or below the byte threshold and one decimal place above
it: 0 → "0 B", 1023 → "1023 B", 1024 → "1.0 KB", 1048576 → "1.0 MB". -/
theorem formatBytes_units :
    formatBytes 0 = some "0 B" ∧ formatBytes 1023 = some "1023 B" ∧
    formatBytes 1024 = some "1.0 KB" ∧ formatBytes 1048576 = some "1.0 MB" := by
  refine ⟨?_, ?_, ?_, ?_⟩
  · unfold formatBytes
    rw [if_pos (by norm_num : (0:ℚ) < 1024)]
    rw [show (0:ℚ) = ((0:ℤ):ℚ) by norm_num, fmtF0_intCast]
    rfl
  · unfold formatBytes
    rw [if_pos (by norm_num : (1023:ℚ) < 1024)]
    rw [show (1023:ℚ) = ((1023:ℤ):ℚ) by norm_num, fmtF0_intCast]
    rfl
  · unfold formatBytes
    rw [if_neg (by norm_num : ¬ ((1024:ℚ) < 1024))]
    rw [show (1024:ℚ) / 1024 = 1 by norm_num]
    rw [show fbLoop 64 (1:ℚ) 1024 0 = some (1024, 0) by decide]
    show some (fmtF1 ((1024:ℚ) / ((1024:ℤ):ℚ)) ++ " " ++ String.mk ['K'] ++ "B") = some "1.0 KB"
    rw [show ((1024:ℚ) / ((1024:ℤ):ℚ)) = ((1:ℤ):ℚ) by push_cast; norm_num, fmtF1_intCast]
    rfl
  · unfold formatBytes
    rw [if_neg (by norm_num : ¬ ((1048576:ℚ) < 1024))]
    rw [show (1048576:ℚ) / 1024 = 1024 by norm_num]
    have e1 : fbLoop 64 (1024:ℚ) 1024 0 = fbLoop 63 ((1024:ℚ) / 1024) (1024 * 1024) 1 := by
      show fbLoop (63 + 1) (1024:ℚ) 1024 0 = _
      rw [fbLoop_succ, if_pos (by norm_num : (1024:ℚ) ≤ 1024)]
    rw [e1, show (1024:ℚ) / 1024 = 1 by norm_num]
    rw [show fbLoop 63 (1:ℚ) (1024 * 1024) 1 = some (1048576, 1) by decide]
    show some (fmtF1 ((1048576:ℚ) / ((1048576:ℤ):ℚ)) ++ " " ++ String.mk ['M'] ++ "B") = some "1.0 MB"
    rw [show ((1048576:ℚ) / ((1048576:ℤ):ℚ)) = ((1:ℤ):ℚ) by push_cast; norm_num, fmtF1_intCast]
    rfl

/-- C10: for every non-negative input below 1024^7 the unit-selection
loop of formatBytes stops with exponent at most 5, the index into
"KMGTPE" is in bounds, and formatBytes returns a value (no panic, no
exhausted loop). -/
theorem formatBytes_no_panic (x : ℚ) (h0 : 0 ≤ x) (h7 : x < 1024 ^ 7) :
    (formatBytes x).isSome = true := by
  unfold formatBytes
  by_cases hs : x < 1024
  · rw [if_pos hs]; rfl
  · rw [if_neg hs]
    have hd : x / 1024 < 1024 ^ (5 + 1) := by
      rw [div_lt_iff₀ (by norm_num : (0:ℚ) < 1024)]
      calc x < 1024 ^ 7 := h7
      _ = 1024 ^ 6 * 1024 := by ring
    obtain ⟨d, e, he, hle⟩ := fbLoop_some 5 64 (x / 1024) 1024 0 hd (by omega)
    rw [he]
    obtain ⟨c, hc⟩ : ∃ c, unitChars.get? e = some c :=
      ⟨_, List.get?_eq_get (by simp only [unitChars, List.length_cons, List.length_nil]; omega)⟩
    show (match unitChars.get? e with
          | none => (none : Option String)
          | some c => some (fmtF1 (x / (d : ℚ)) ++ " " ++ String.mk [c] ++ "B")).isSome = true
    rw [hc]
    rfl

/-- C10 witness: formatBytes at 1048576 is within the bound and returns a
value. -/
theorem formatBytes_no_panic_witness :
    (0:ℚ) ≤ 1048576 ∧ (1048576:ℚ) < 1024 ^ 7 ∧ (formatBytes 1048576).isSome = true :=
  ⟨by norm_num, by norm_num, formatBytes_no_panic 1048576 (by norm_num) (by norm_num)⟩

/-- C5: the computed network rate is never negative; on the first tick it
is exactly 0; with a positive elapsed time and a non-decreasing counter it
equals the counter difference over the elapsed seconds; a negative
difference is clamped to 0; and collect publishes exactly these rates
when the network adapter succeeds. -/
theorem networkRate_spec :
    (∀ (f : Bool) (l c t : ℚ), 0 ≤ networkRate f l c t) ∧
    (∀ (l c t : ℚ), networkRate true l c t = 0) ∧
    (∀ (l c t : ℚ), l ≤ c → 0 < t → networkRate false l c t = (c - l) / t) ∧
    (∀ (l c t : ℚ), 0 < t → c < l → networkRate false l c t = 0) ∧
    (∀ (st : CollectorState) (inp : AdapterInputs) (a b : ℚ),
      inp.netCounters = some (a, b) →
      (collect st inp).state.current.NetworkIn =
        networkRate st.lastCollectTimeIsZero st.lastNetworkIn a inp.timeDiff ∧
      (collect st inp).state.current.NetworkOut =
        networkRate st.lastCollectTimeIsZero st.lastNetworkOut b inp.timeDiff) := by
  refine ⟨?_, ?_, ?_, ?_, ?_⟩
  · intro f l c t
    unfold networkRate
    split_ifs with h1 h2 h3
    · exact le_refl 0
    · exact le_refl 0
    · exact le_of_not_lt h3
    · exact le_refl 0
  · intro l c t
    unfold networkRate
    rw [if_pos rfl]
  · intro l c t hlc ht
    unfold networkRate
    rw [if_neg Bool.false_ne_true, if_pos ht,
      if_neg (not_lt.mpr (div_nonneg (by linarith) ht.le))]
  · intro l c t ht hcl
    unfold networkRate
    rw [if_neg Bool.false_ne_true, if_pos ht,
      if_pos (div_neg_of_neg_of_pos (by linarith) ht)]
  · intro st inp a b h
    obtain ⟨cpu, mem, dsk, net, td, up, dbs, ping, ha, dcp, cl, p5, p52⟩ := inp
    simp only at h
    subst h
    refine ⟨?_, ?_⟩ <;>
      (cases cpu <;> cases mem <;> cases dsk <;> cases up <;> cases dbs <;> cases ha <;> rfl)

/-- C5 witness: the rate formula, the clamp and the publication through
collect at concrete inputs. -/
theorem networkRate_spec_witness :
    ((1:ℚ) ≤ 3 ∧ (0:ℚ) < 2 ∧ networkRate false 1 3 2 = (3 - 1) / 2) ∧
    ((0:ℚ) < 2 ∧ (1:ℚ) < 3 ∧ networkRate false 3 1 2 = 0) ∧
    ({ cpu := none, memory := none, diskUsage := none, netCounters := some (3, 4),
       timeDiff := 5, uptimeInfo := none, dbSize := none, dbPingOk := false,
       haproxyStats := none, dockerClientPresent := false, containerList := none,
       pi5Ping := false, pi52Ping := false : AdapterInputs }.netCounters = some (3, 4) ∧
     (collect initialCollectorState
        { cpu := none, memory := none, diskUsage := none, netCounters := some (3, 4),
          timeDiff := 5, uptimeInfo := none, dbSize := none, dbPingOk := false,
          haproxyStats := none, dockerClientPresent := false, containerList := none,
          pi5Ping := false, pi52Ping := false }).state.current.NetworkIn =
       networkRate true 0 3 5) :=
  ⟨⟨by norm_num, by norm_num, networkRate_spec.2.2.1 1 3 2 (by norm_num) (by norm_num)⟩,
   ⟨by norm_num, by norm_num, networkRate_spec.2.2.2.1 3 1 2 (by norm_num) (by norm_num)⟩,
   rfl,
   (networkRate_spec.2.2.2.2 initialCollectorState _ 3 4 rfl).1⟩

theorem execAll_ok {α : Type} (fail : Nat → Bool) :
    ∀ (i : Nat) (rows l : List α), execAll fail i rows = Except.ok l → l = rows := by
  intro i rows
  induction rows generalizing i with
  | nil =>
    intro l h
    simpa [execAll] using h.symm
  | cons r rs ih =>
    intro l h
    rw [execAll] at h
    by_cases hf : fail i
    · rw [if_pos hf] at h
      exact absurd h (by simp)
    · rw [if_neg hf] at h
      cases he : execAll fail (i + 1) rs with
      | error e => rw [he] at h; exact absurd h (by simp)
      | ok acc =>
        rw [he] at h
        cases h
        rw [ih (i + 1) acc he]

/-- C6: BulkInsert is atomic for one tick's batch — on success the store
gains exactly all metric rows and all status rows of the batch, and on any
error (begin, prepare, any exec, or commit) the store is unchanged. -/
theorem BulkInsert_atomic (o : TxOracle) (db : Store) (metrics : List SystemMetric)
    (statuses : List ServiceStatusRow) :
    (BulkInsert o db metrics statuses).2 =
      (if exceptOk (BulkInsert o db metrics statuses).1 then
        { systemMetricsRows := db.systemMetricsRows ++ metrics,
          serviceStatusRows := db.serviceStatusRows ++ statuses }
      else db) := by
  unfold BulkInsert
  split
  · rfl
  split
  · rfl
  split
  · rfl
  split
  · rfl
  rename_i ms hm
  split
  · rfl
  rename_i ss hs
  split
  · rfl
  rw [execAll_ok _ _ _ _ hm, execAll_ok _ _ _ _ hs]
  rfl

/-- C7: in one broadcast round delivery is attempted independently per
registered client: the round is a pointwise non-blocking send, a client
whose queue is full keeps its queue unchanged (exactly this one update is
dropped for it), a client with room receives exactly this update appended,
and the outcome for client i depends only on client i's own queue. -/
theorem broadcastRound_independent (r : StatusResponse) (now : String)
    (cs cs' : List SSEClient) (i : Nat) :
    ((broadcastRound (Except.ok r) now cs).get? i
        = (cs.get? i).map (trySend (buildSignals now r))) ∧
    (∀ c : SSEClient, ¬ c.queue.length < c.cap →
      trySend (buildSignals now r) c = c) ∧
    (∀ c : SSEClient, c.queue.length < c.cap →
      (trySend (buildSignals now r) c).queue = c.queue ++ [buildSignals now r] ∧
      (trySend (buildSignals now r) c).cap = c.cap) ∧
    (cs.get? i = cs'.get? i →
      (broadcastRound (Except.ok r) now cs).get? i
        = (broadcastRound (Except.ok r) now cs').get? i) := by
  refine ⟨?_, ?_, ?_, ?_⟩
  · simp [broadcastRound, List.get?_map]
  · intro c h
    unfold trySend
    rw [if_neg h]
  · intro c h
    unfold trySend
    rw [if_pos h]
    exact ⟨rfl, rfl⟩
  · intro h
    rw [List.get?_eq_getElem?, List.get?_eq_getElem?] at h
    simp [broadcastRound, List.getElem?_map, h]

/-- C7 witness: a full (capacity-0) client drops the update and keeps its
queue; a client with room gets the update appended. -/
theorem broadcastRound_independent_witness :
    (¬ ([] : List (List (String × SignalValue))).length < 0) ∧
    trySend (buildSignals "t" emptyStatusResponse) { queue := [], cap := 0 }
      = { queue := [], cap := 0 } ∧
    (([] : List (List (String × SignalValue))).length < 1) ∧
    (trySend (buildSignals "t" emptyStatusResponse) { queue := [], cap := 1 }).queue
      = [] ++ [buildSignals "t" emptyStatusResponse] :=
  ⟨by decide,
   (broadcastRound_independent emptyStatusResponse "t" [] [] 0).2.1
     { queue := [], cap := 0 } (by decide),
   by decide,
   ((broadcastRound_independent emptyStatusResponse "t" [] [] 0).2.2.1
     { queue := [], cap := 1 } (by decide)).1⟩

/-- C4 counterexample: a client that connects while its stream loop is not
yet blocked receiving on the unbuffered channel gets no catch-up update at
all (the goroutine's non-blocking send hits the default branch), refuting
"receives exactly one immediate catch-up update". -/
theorem catchUp_dropped_counterexample :
    catchUpEvent "2026-01-01 00:00:00" (Except.ok emptyStatusResponse) false = none := rfl

/-- C4 (amended): a connecting client is sent at most one immediate
catch-up update — it is delivered only when the status read succeeded and
the client's stream loop is already waiting on the unbuffered channel —
and when delivered its content equals the signals transform of the status
read at connect time. -/
theorem catchUp_at_most_one (now : String) (st : Except String StatusResponse)
    (ready : Bool) :
    (catchUpEvent now st ready).toList.length ≤ 1 ∧
    (∀ ev, catchUpEvent now st ready = some ev →
      ∃ r, st = Except.ok r ∧ ev = buildSignals now r) := by
  constructor
  · cases st with
    | error e => simp [catchUpEvent]
    | ok r => cases ready <;> simp [catchUpEvent]
  · intro ev h
    cases st with
    | error e => simp [catchUpEvent] at h
    | ok r =>
      cases ready with
      | false => simp [catchUpEvent] at h
      | true =>
        refine ⟨r, rfl, ?_⟩
        simpa [catchUpEvent] using h.symm

/-- C4 witness: with a ready receiver the catch-up is delivered once and
carries the signals of the status read at connect time. -/
theorem catchUp_at_most_one_witness :
    (catchUpEvent "2026-01-01 00:00:00" (Except.ok emptyStatusResponse) true).toList.length ≤ 1 ∧
    ∃ r, (Except.ok emptyStatusResponse : Except String StatusResponse) = Except.ok r ∧
      buildSignals "2026-01-01 00:00:00" emptyStatusResponse
        = buildSignals "2026-01-01 00:00:00" r :=
  ⟨(catchUp_at_most_one "2026-01-01 00:00:00" (Except.ok emptyStatusResponse) true).1,
   (catchUp_at_most_one "2026-01-01 00:00:00" (Except.ok emptyStatusResponse) true).2
     (buildSignals "2026-01-01 00:00:00" emptyStatusResponse) rfl⟩

/-- C2 counterexample: when the HAProxy stats fetch fails,
getCurrentStatus returns the error (not a status value) and the /api/status
handler responds 500. -/
theorem getCurrentStatus_error_counterexample :
    getCurrentStatus (Except.error "failed to connect to HAProxy socket") emptyMetrics []
      = Except.error "failed to connect to HAProxy socket" ∧
    (handleAPIStatus (Except.error "failed to connect to HAProxy socket") emptyMetrics []).1
      = 500 :=
  ⟨rfl, rfl⟩

/-- C2 (amended): the status-read path propagates a failure of the live
HAProxy stats fetch — getCurrentStatus returns the error and
handleAPIStatus responds 500 — while a successful fetch always yields a
status value and a 200 response (collector-adapter failures are only
reflected as defaulted snapshot fields and cause no error here). -/
theorem getCurrentStatus_error_propagation :
    (∀ (e : String) (m : SystemMetrics) (d : List ServiceStatus),
      getCurrentStatus (Except.error e) m d = Except.error e ∧
      (handleAPIStatus (Except.error e) m d).1 = 500) ∧
    (∀ (bs : List Backend) (m : SystemMetrics) (d : List ServiceStatus),
      ∃ r, getCurrentStatus (Except.ok bs) m d = Except.ok r ∧
        handleAPIStatus (Except.ok bs) m d = (200, some r)) := by
  constructor
  · intro e m d
    exact ⟨rfl, rfl⟩
  · intro bs m d
    exact ⟨_, rfl, rfl⟩

/-- C1: evaluation of collect at a tick whose docker listing fails after
a successful previous tick.  collectDockerStats does write
DockerConnected := false, but collect then overwrites current with the
fresh metrics struct whose DockerConnected was set to true from the
client-presence check, and the docker service list of the previous tick is
retained; meanwhile a failing scalar adapter (cpu) correctly defaults to 0
instead of retaining the earlier tick's 7. -/
theorem collect_dockerFailure_eval :
    (collect stAfterTick1 dockerFailInputs).state.current.DockerConnected = true ∧
    (collect stAfterTick1 dockerFailInputs).state.dockerStatus = [prevDockerEntry] ∧
    (collectDockerStats stAfterTick1 none).1.current.DockerConnected = false ∧
    (collect stAfterTick1 dockerFailInputs).state.current.CPUPercent = 0 :=
  ⟨rfl, rfl, rfl, rfl⟩

theorem loopActions_prefix_inv :
    ∀ (oks : List Bool) (t : Nat) (s : LockView), s.curTick + 1 = t → s.dockerTick ≤ t →
    ∀ k, (((loopActions oks t).take k).foldl applyAction s).dockerTick
      ≤ (((loopActions oks t).take k).foldl applyAction s).curTick + 1 := by
  intro oks
  induction oks with
  | nil =>
    intro t s hc hd k
    simp only [loopActions, List.take_nil, List.foldl_nil]
    omega
  | cons ok rest ih =>
    intro t s hc hd k
    cases ok
    · simp only [loopActions, tickActions, List.cons_append, List.nil_append]
      cases k with
      | zero =>
        simp only [List.take_zero, List.foldl_nil]
        omega
      | succ k =>
        simp only [List.take_succ_cons, List.foldl_cons]
        exact ih (t + 1) (applyAction s (CAction.writeCurrent t)) rfl
          (by simp only [applyAction]; omega) k
    · simp only [loopActions, tickActions, List.cons_append, List.nil_append]
      cases k with
      | zero =>
        simp only [List.take_zero, List.foldl_nil]
        omega
      | succ k =>
        cases k with
        | zero =>
          simp only [List.take_succ_cons, List.take_zero, List.foldl_cons, List.foldl_nil]
          simp only [applyAction]
          omega
        | succ k =>
          simp only [List.take_succ_cons, List.foldl_cons]
          exact ih (t + 1)
            (applyAction (applyAction s (CAction.writeDocker t)) (CAction.writeCurrent t))
            rfl (by simp only [applyAction]; omega) k

/-- C3 counterexample: the reachable view in which tick 2's dockerStatus
write has happened but its current write has not (trace: tick 1 complete,
then the writeDocker action of tick 2) shows a reader observing
dockerStatus from tick 2 together with current from tick 1, refuting
"no reader ever observes a mix of two ticks". -/
theorem snapshot_mix_counterexample : ¬ SnapshotConsistent := by
  intro h
  have h12 := h { curTick := 1, dockerTick := 2 } ⟨[true, true], 3, by decide⟩
  exact absurd h12 (by decide)

/-- C3 (amended): current and dockerStatus are each written atomically
under the collector mutex, but in separate critical sections of one tick
(dockerStatus first, inside collectDockerStats; current afterwards), so a
reader may observe a mix of two ticks; the mix is bounded: the dockerStatus
tick never exceeds the current tick by more than the one in-flight tick. -/
theorem snapshot_mix_bounded (s : LockView) (hs : ReachableView s) :
    s.dockerTick ≤ s.curTick + 1 := by
  obtain ⟨oks, k, rfl⟩ := hs
  exact loopActions_prefix_inv oks 1 { curTick := 0, dockerTick := 0 } rfl (by decide) k

/-- C3 witness: the mixed view of the counterexample trace is reachable
and satisfies the amended bound. -/
theorem snapshot_mix_bounded_witness :
    ReachableView { curTick := 1, dockerTick := 2 } ∧ (2 : Nat) ≤ 1 + 1 :=
  ⟨⟨[true, true], 3, by decide⟩,
   snapshot_mix_bounded { curTick := 1, dockerTick := 2 } ⟨[true, true], 3, by decide⟩⟩
